import Mathlib

/-!
Shallow embedding of the key-event translation core of the Keylogger
repository (src/Keylogger/src/Main.cpp).

The C++ source has two parts with real logic:

* `translate` (Main.cpp lines 28-51): a pure function from a
  primary/secondary character pair and five modifier flags to a string.
* `procedure` (Main.cpp lines 64-367): the low-level keyboard hook, which
  keeps five `static bool` modifier flags (`win`, `shift`, `caps`, `ctrl`,
  `alt`) and, for each key event, updates the flags or emits a text
  fragment via a large `switch` on the virtual key code.

Strings are modelled as `List Char` (the fragment appended to the log by
one invocation).  The hook's static state is modelled as an explicit
`ProcState` record, and one invocation of the hook body is the function
`procedure : ProcState → Dir → Nat → ProcState × List Char`, where `Dir`
distinguishes the WM_KEYDOWN/WM_SYSKEYDOWN messages from the
WM_KEYUP/WM_SYSKEYUP ones and `Nat` is the virtual key code.

Virtual key codes are the numeric values of the Windows constants used in
the source: VK_BACK = 8, VK_TAB = 9, VK_RETURN = 13, VK_CAPITAL = 20,
VK_ESCAPE = 27, VK_SPACE = 32, VK_PRIOR = 33, VK_NEXT = 34, VK_END = 35,
VK_HOME = 36, VK_LEFT = 37, VK_UP = 38, VK_RIGHT = 39, VK_DOWN = 40,
VK_SNAPSHOT = 44, VK_INSERT = 45, VK_DELETE = 46, digits 48-57, letters
65-90, VK_LWIN = 91, VK_RWIN = 92, VK_LSHIFT = 160, VK_RSHIFT = 161,
VK_LCONTROL = 162, VK_RCONTROL = 163, VK_LMENU = 164, VK_RMENU = 165,
VK_OEM_1 = 186, VK_OEM_PLUS = 187, VK_OEM_COMMA = 188, VK_OEM_MINUS = 189,
VK_OEM_PERIOD = 190, VK_OEM_2 = 191, VK_OEM_3 = 192, VK_OEM_4 = 219,
VK_OEM_5 = 220, VK_OEM_6 = 221, VK_OEM_7 = 222.

A few characters are written with `Char.ofNat` rather than as literals:
96 is the backquote, 92 the backslash, 39 the single quote, 34 the double
quote, 123 and 125 the curly braces.
-/

namespace Keylogger

/-- Embedding of `translate` (Main.cpp lines 28-51).  Follows the source
line by line: if any of win/ctrl/alt is set, `caps` is forced to `false`
and the text is opened with a bracket; then the three modifier labels are
appended in order; then `shift ^ caps` selects the secondary or primary
character; finally the bracket is closed when decorated. -/
def translate (primary secondary : Char) (win shift caps ctrl alt : Bool) :
    List Char :=
  let caps := if win || ctrl || alt then false else caps
  let text : List Char := if win || ctrl || alt then ['<'] else []
  let text := if win then text ++ "WIN + ".data else text
  let text := if ctrl then text ++ "CTRL + ".data else text
  let text := if alt then text ++ "ALT + ".data else text
  let text := if Bool.xor shift caps then text ++ [secondary]
              else text ++ [primary]
  if win || ctrl || alt then text ++ ['>'] else text

/-- The five `static bool` flags of `procedure` (Main.cpp lines 67-71). -/
structure ProcState where
  win : Bool
  shift : Bool
  caps : Bool
  ctrl : Bool
  alt : Bool
deriving DecidableEq, Repr

/-- Event direction: WM_KEYDOWN/WM_SYSKEYDOWN versus
WM_KEYUP/WM_SYSKEYUP (Main.cpp lines 79-80 and 340-341). -/
inductive Dir where
  | down : Dir
  | up : Dir
deriving DecidableEq, Repr

/-- Embedding of one HC_ACTION invocation of the hook `procedure`
(Main.cpp lines 64-367): given the current static flag state, the message
direction and the virtual key code, it returns the new flag state and the
`log` fragment written to the console.  Each arm mirrors one `case` of
the source's `switch` statements; unmatched codes fall through with no
state change and an empty log. -/
def procedure (st : ProcState) (dir : Dir) (vk : Nat) :
    ProcState × List Char :=
  match dir with
  | Dir.down =>
    match vk with
    | 8 => (st, "<BACKSPACE>".data)
    | 9 => (st, "<TAB>".data)
    | 13 => (st, "<RETURN>\r\n".data)
    | 20 => ({ st with caps := !st.caps }, [])
    | 27 => (st, "<ESC>".data)
    | 32 => (st, " ".data)
    | 33 => (st, "<PGDN>".data)
    | 34 => (st, "<PGUP>".data)
    | 35 => (st, "<END>".data)
    | 36 => (st, "<HOME>".data)
    | 37 => (st, "<LEFT>".data)
    | 38 => (st, "<UP>".data)
    | 39 => (st, "<RIGHT>".data)
    | 40 => (st, "<DOWN>".data)
    | 44 => (st, "<PRTSC>".data)
    | 45 => (st, "<INS>".data)
    | 46 => (st, "<DEL>".data)
    | 48 => (st, translate '0' ')' st.win st.shift false st.ctrl st.alt)
    | 49 => (st, translate '1' '!' st.win st.shift false st.ctrl st.alt)
    | 50 => (st, translate '2' '@' st.win st.shift false st.ctrl st.alt)
    | 51 => (st, translate '3' '#' st.win st.shift false st.ctrl st.alt)
    | 52 => (st, translate '4' '$' st.win st.shift false st.ctrl st.alt)
    | 53 => (st, translate '5' '%' st.win st.shift false st.ctrl st.alt)
    | 54 => (st, translate '6' '^' st.win st.shift false st.ctrl st.alt)
    | 55 => (st, translate '7' '&' st.win st.shift false st.ctrl st.alt)
    | 56 => (st, translate '8' '*' st.win st.shift false st.ctrl st.alt)
    | 57 => (st, translate '9' '(' st.win st.shift false st.ctrl st.alt)
    | 65 => (st, translate 'a' 'A' st.win st.shift st.caps st.ctrl st.alt)
    | 66 => (st, translate 'b' 'B' st.win st.shift st.caps st.ctrl st.alt)
    | 67 => (st, translate 'c' 'C' st.win st.shift st.caps st.ctrl st.alt)
    | 68 => (st, translate 'd' 'D' st.win st.shift st.caps st.ctrl st.alt)
    | 69 => (st, translate 'e' 'E' st.win st.shift st.caps st.ctrl st.alt)
    | 70 => (st, translate 'f' 'F' st.win st.shift st.caps st.ctrl st.alt)
    | 71 => (st, translate 'g' 'G' st.win st.shift st.caps st.ctrl st.alt)
    | 72 => (st, translate 'h' 'H' st.win st.shift st.caps st.ctrl st.alt)
    | 73 => (st, translate 'i' 'I' st.win st.shift st.caps st.ctrl st.alt)
    | 74 => (st, translate 'j' 'J' st.win st.shift st.caps st.ctrl st.alt)
    | 75 => (st, translate 'k' 'K' st.win st.shift st.caps st.ctrl st.alt)
    | 76 => (st, translate 'l' 'L' st.win st.shift st.caps st.ctrl st.alt)
    | 77 => (st, translate 'm' 'M' st.win st.shift st.caps st.ctrl st.alt)
    | 78 => (st, translate 'n' 'N' st.win st.shift st.caps st.ctrl st.alt)
    | 79 => (st, translate 'o' 'O' st.win st.shift st.caps st.ctrl st.alt)
    | 80 => (st, translate 'p' 'P' st.win st.shift st.caps st.ctrl st.alt)
    | 81 => (st, translate 'q' 'Q' st.win st.shift st.caps st.ctrl st.alt)
    | 82 => (st, translate 'r' 'R' st.win st.shift st.caps st.ctrl st.alt)
    | 83 => (st, translate 's' 'S' st.win st.shift st.caps st.ctrl st.alt)
    | 84 => (st, translate 't' 'T' st.win st.shift st.caps st.ctrl st.alt)
    | 85 => (st, translate 'u' 'U' st.win st.shift st.caps st.ctrl st.alt)
    | 86 => (st, translate 'v' 'V' st.win st.shift st.caps st.ctrl st.alt)
    | 87 => (st, translate 'w' 'W' st.win st.shift st.caps st.ctrl st.alt)
    | 88 => (st, translate 'x' 'X' st.win st.shift st.caps st.ctrl st.alt)
    | 89 => (st, translate 'y' 'Y' st.win st.shift st.caps st.ctrl st.alt)
    | 90 => (st, translate 'z' 'Z' st.win st.shift st.caps st.ctrl st.alt)
    | 91 | 92 => ({ st with win := true }, [])
    | 160 | 161 => ({ st with shift := true }, [])
    | 162 | 163 => ({ st with ctrl := true }, [])
    | 164 | 165 => ({ st with alt := true }, [])
    | 186 => (st, translate ';' ':' st.win st.shift st.caps st.ctrl st.alt)
    | 187 => (st, translate '=' '+' st.win st.shift st.caps st.ctrl st.alt)
    | 188 => (st, translate ',' '<' st.win st.shift st.caps st.ctrl st.alt)
    | 189 => (st, translate '-' '_' st.win st.shift st.caps st.ctrl st.alt)
    | 190 => (st, translate '.' '>' st.win st.shift st.caps st.ctrl st.alt)
    | 191 => (st, translate '/' '?' st.win st.shift st.caps st.ctrl st.alt)
    | 192 => (st, translate (Char.ofNat 96) '~'
        st.win st.shift st.caps st.ctrl st.alt)
    | 219 => (st, translate '[' (Char.ofNat 123)
        st.win st.shift st.caps st.ctrl st.alt)
    | 220 => (st, translate (Char.ofNat 92) '|'
        st.win st.shift st.caps st.ctrl st.alt)
    | 221 => (st, translate ']' (Char.ofNat 125)
        st.win st.shift st.caps st.ctrl st.alt)
    | 222 => (st, translate (Char.ofNat 39) (Char.ofNat 34)
        st.win st.shift st.caps st.ctrl st.alt)
    | _ => (st, [])
  | Dir.up =>
    match vk with
    | 91 | 92 => ({ st with win := false }, [])
    | 160 | 161 => ({ st with shift := false }, [])
    | 162 | 163 => ({ st with ctrl := false }, [])
    | 164 | 165 => ({ st with alt := false }, [])
    | _ => (st, [])

/-- The initial state of the five static flags: all false
(Main.cpp lines 67-71). -/
def initialState : ProcState := ⟨false, false, false, false, false⟩

/-- Run a sequence of key events through the hook from a given state,
concatenating the emitted fragments in order (the event stream delivered
by the OS hook, one call of `procedure` per event). -/
def run (st : ProcState) : List (Dir × Nat) → ProcState × List Char
  | [] => (st, [])
  | (d, vk) :: rest =>
    let s1 := procedure st d vk
    let s2 := run s1.1 rest
    (s2.1, s1.2 ++ s2.2)

/-- C1: for a character-table key handled by `translate` with no
decorating modifier (win, ctrl, alt all false), the emitted character is
the secondary character exactly when shift and caps-lock differ, and the
primary character otherwise — shift and caps-lock each select the
secondary glyph and cancel when both are active. -/
theorem c1_xor_case_law (p s : Char) (sh cp : Bool) :
    translate p s false sh cp false false = [if sh ≠ cp then s else p] := by
  cases sh <;> cases cp <;> rfl

/-- C3: when at least one of win, ctrl, alt is active, the caps-lock flag
has no influence on the output of `translate` (it is forced to false), and
the output is wrapped in angle brackets: it starts with the character
less-than and ends with the character greater-than. -/
theorem c3_decoration_suppresses_caps (p s : Char) (w sh cp ct al : Bool)
    (h : (w || ct || al) = true) :
    translate p s w sh cp ct al = translate p s w sh false ct al ∧
    (translate p s w sh cp ct al).head? = some '<' ∧
    (translate p s w sh cp ct al).getLast? = some '>' := by
  cases w <;> cases ct <;> cases al <;> cases sh <;>
    first
      | exact ⟨rfl, rfl, rfl⟩
      | simp at h

/-- Witness for C3 at a concrete input: win held, caps-lock on, the key
for the pair (a, A). -/
theorem c3_witness :
    ((true || false || false) = true) ∧
    (translate 'a' 'A' true false true false false =
      translate 'a' 'A' true false false false false ∧
    (translate 'a' 'A' true false true false false).head? = some '<' ∧
    (translate 'a' 'A' true false true false false).getLast? = some '>') :=
  ⟨by decide, c3_decoration_suppresses_caps 'a' 'A' true false true false
    false (by decide)⟩

/-- C4: for a decorated character-table event the output is exactly one
opening bracket, then the token "WIN + " when win is active, then
"CTRL + " when ctrl is active, then "ALT + " when alt is active — in that
fixed order, each label carrying its own " + " separator — then the
selected character (secondary when shift is held, primary otherwise;
shift never contributes a token of its own), then the closing bracket.
In particular the sequence meta-down, control-down, a-down starting from
the initial state emits the fragment for the string WIN + CTRL + a in
angle brackets. -/
theorem c4_decoration_token_order (p s : Char) (w sh cp ct al : Bool)
    (h : (w || ct || al) = true) :
    translate p s w sh cp ct al =
      ['<'] ++ (if w then "WIN + ".data else []) ++
        (if ct then "CTRL + ".data else []) ++
        (if al then "ALT + ".data else []) ++
        (if sh then [s] else [p]) ++ ['>'] ∧
    (run initialState [(Dir.down, 91), (Dir.down, 162), (Dir.down, 65)]).2 =
      "<WIN + CTRL + a>".data := by
  refine ⟨?_, by decide⟩
  cases w <;> cases ct <;> cases al <;> cases sh <;>
    first
      | rfl
      | simp at h

/-- Witness for C4 at a concrete input: win and ctrl held with the key
for the pair (a, A). -/
theorem c4_witness :
    ((true || true || false) = true) ∧
    (translate 'a' 'A' true false false true false =
      ['<'] ++ (if true then "WIN + ".data else []) ++
        (if true then "CTRL + ".data else []) ++
        (if false then "ALT + ".data else []) ++
        (if false then ['A'] else ['a']) ++ ['>'] ∧
    (run initialState [(Dir.down, 91), (Dir.down, 162), (Dir.down, 65)]).2 =
      "<WIN + CTRL + a>".data) :=
  ⟨by decide, c4_decoration_token_order 'a' 'A' true false false true false
    (by decide)⟩

/-- C5: a key-down of VK_CAPITAL flips exactly the caps flag and emits
nothing, so two consecutive caps-lock key-downs restore the original
state, and a key-up of VK_CAPITAL changes nothing and emits nothing. -/
theorem c5_caps_lock_toggle (st : ProcState) :
    procedure st Dir.down 20 = ({ st with caps := !st.caps }, []) ∧
    (procedure (procedure st Dir.down 20).1 Dir.down 20).1 = st ∧
    procedure st Dir.up 20 = (st, []) := by
  obtain ⟨w, sh, cp, ct, al⟩ := st
  refine ⟨rfl, ?_, rfl⟩
  cases cp <;> rfl

/-- C6: for each of the four held modifiers, a key-down of either the
left or the right variant sets the one shared flag (with empty output),
and a key-up of either variant clears it; hence left-shift down followed
by right-shift up leaves the shift flag cleared. -/
theorem c6_modifier_symmetry (st : ProcState) :
    procedure st Dir.down 91 = ({ st with win := true }, []) ∧
    procedure st Dir.down 92 = ({ st with win := true }, []) ∧
    procedure st Dir.up 91 = ({ st with win := false }, []) ∧
    procedure st Dir.up 92 = ({ st with win := false }, []) ∧
    procedure st Dir.down 160 = ({ st with shift := true }, []) ∧
    procedure st Dir.down 161 = ({ st with shift := true }, []) ∧
    procedure st Dir.up 160 = ({ st with shift := false }, []) ∧
    procedure st Dir.up 161 = ({ st with shift := false }, []) ∧
    procedure st Dir.down 162 = ({ st with ctrl := true }, []) ∧
    procedure st Dir.down 163 = ({ st with ctrl := true }, []) ∧
    procedure st Dir.up 162 = ({ st with ctrl := false }, []) ∧
    procedure st Dir.up 163 = ({ st with ctrl := false }, []) ∧
    procedure st Dir.down 164 = ({ st with alt := true }, []) ∧
    procedure st Dir.down 165 = ({ st with alt := true }, []) ∧
    procedure st Dir.up 164 = ({ st with alt := false }, []) ∧
    procedure st Dir.up 165 = ({ st with alt := false }, []) ∧
    (procedure (procedure st Dir.down 160).1 Dir.up 161).1.shift = false :=
  ⟨rfl, rfl, rfl, rfl, rfl, rfl, rfl, rfl, rfl, rfl, rfl, rfl, rfl, rfl,
    rfl, rfl, rfl⟩

/-- The set of virtual key codes that appear as a `case` of the key-down
`switch` of `procedure` (Main.cpp lines 81-337); the key-up `switch`
(lines 342-359) handles a subset of these.  Any other code falls through
both switches. -/
def handledDown (vk : Nat) : Bool :=
  match vk with
  | 8 | 9 | 13 | 20 | 27 | 32 | 33 | 34 | 35 | 36 | 37 | 38 | 39 | 40
  | 44 | 45 | 46 => true
  | 48 | 49 | 50 | 51 | 52 | 53 | 54 | 55 | 56 | 57 => true
  | 65 | 66 | 67 | 68 | 69 | 70 | 71 | 72 | 73 | 74 | 75 | 76 | 77 | 78
  | 79 | 80 | 81 | 82 | 83 | 84 | 85 | 86 | 87 | 88 | 89 | 90 => true
  | 91 | 92 | 160 | 161 | 162 | 163 | 164 | 165 => true
  | 186 | 187 | 188 | 189 | 190 | 191 | 192 | 219 | 220 | 221
  | 222 => true
  | _ => false

set_option maxHeartbeats 1600000 in
/-- C7: an event whose virtual key code is handled by no `case` of either
`switch` (so it is in neither the character table nor the literal-label
table and is not a modifier) leaves the state unchanged and emits the
empty fragment, for key-down and key-up alike; `procedure` is a total
function, so no failure is signalled. -/
theorem c7_unmapped_is_silent (st : ProcState) (d : Dir) (vk : Nat)
    (h : handledDown vk = false) :
    procedure st d vk = (st, []) := by
  cases d <;> simp only [procedure] <;> split <;>
    first
      | rfl
      | exact absurd h (by decide)

/-- Witness for C7 at a concrete input: virtual key code 7 (undefined in
the Windows enumeration) on key-down from the initial state. -/
theorem c7_witness :
    handledDown 7 = false ∧
    procedure initialState Dir.down 7 = (initialState, []) :=
  ⟨by decide, c7_unmapped_is_silent initialState Dir.down 7 (by decide)⟩

/-- C8: each literal-label key emits its fixed string on key-down with
the state unchanged, for every modifier state (no case selection, no
bracket decoration, no modifier tokens); Return's string is its label
followed by the line-break sequence CR LF. -/
theorem c8_literal_labels (st : ProcState) :
    procedure st Dir.down 8 = (st, "<BACKSPACE>".data) ∧
    procedure st Dir.down 9 = (st, "<TAB>".data) ∧
    procedure st Dir.down 13 = (st, "<RETURN>\r\n".data) ∧
    "<RETURN>\r\n".data = "<RETURN>".data ++ "\r\n".data ∧
    procedure st Dir.down 27 = (st, "<ESC>".data) ∧
    procedure st Dir.down 32 = (st, " ".data) ∧
    procedure st Dir.down 33 = (st, "<PGDN>".data) ∧
    procedure st Dir.down 34 = (st, "<PGUP>".data) ∧
    procedure st Dir.down 35 = (st, "<END>".data) ∧
    procedure st Dir.down 36 = (st, "<HOME>".data) ∧
    procedure st Dir.down 37 = (st, "<LEFT>".data) ∧
    procedure st Dir.down 38 = (st, "<UP>".data) ∧
    procedure st Dir.down 39 = (st, "<RIGHT>".data) ∧
    procedure st Dir.down 40 = (st, "<DOWN>".data) ∧
    procedure st Dir.down 44 = (st, "<PRTSC>".data) ∧
    procedure st Dir.down 45 = (st, "<INS>".data) ∧
    procedure st Dir.down 46 = (st, "<DEL>".data) :=
  ⟨rfl, rfl, rfl, by decide, rfl, rfl, rfl, rfl, rfl, rfl, rfl, rfl, rfl,
    rfl, rfl, rfl, rfl⟩

/-- The virtual key codes that `procedure` treats as modifiers: caps-lock
(20) and the left/right variants of win, shift, ctrl and alt. -/
def isModifier (vk : Nat) : Bool :=
  match vk with
  | 20 | 91 | 92 | 160 | 161 | 162 | 163 | 164 | 165 => true
  | _ => false

set_option maxHeartbeats 1600000 in
set_option maxHeartbeats 1600000 in
/-- C9: a modifier event (key-down or key-up) only updates the tracked
modifier state and emits no text; every non-modifier event leaves the
modifier state unchanged; and each character-table key-down is routed to
the translator together with the current modifier snapshot: its fragment
is `translate` applied to the key's character pair and the snapshot's
flags (the digit keys presenting `false` for caps, as in the source). -/
theorem c9_event_routing (st : ProcState) (d : Dir) (vk : Nat) :
    (isModifier vk = true → (procedure st d vk).2 = []) ∧
    (isModifier vk = false → (procedure st d vk).1 = st) ∧
    ((procedure st Dir.down 48).2 =
        translate '0' ')' st.win st.shift false st.ctrl st.alt ∧
      (procedure st Dir.down 49).2 =
        translate '1' '!' st.win st.shift false st.ctrl st.alt ∧
      (procedure st Dir.down 50).2 =
        translate '2' '@' st.win st.shift false st.ctrl st.alt ∧
      (procedure st Dir.down 51).2 =
        translate '3' '#' st.win st.shift false st.ctrl st.alt ∧
      (procedure st Dir.down 52).2 =
        translate '4' '$' st.win st.shift false st.ctrl st.alt ∧
      (procedure st Dir.down 53).2 =
        translate '5' '%' st.win st.shift false st.ctrl st.alt ∧
      (procedure st Dir.down 54).2 =
        translate '6' '^' st.win st.shift false st.ctrl st.alt ∧
      (procedure st Dir.down 55).2 =
        translate '7' '&' st.win st.shift false st.ctrl st.alt ∧
      (procedure st Dir.down 56).2 =
        translate '8' '*' st.win st.shift false st.ctrl st.alt ∧
      (procedure st Dir.down 57).2 =
        translate '9' '(' st.win st.shift false st.ctrl st.alt ∧
      (procedure st Dir.down 65).2 =
        translate 'a' 'A' st.win st.shift st.caps st.ctrl st.alt ∧
      (procedure st Dir.down 66).2 =
        translate 'b' 'B' st.win st.shift st.caps st.ctrl st.alt ∧
      (procedure st Dir.down 67).2 =
        translate 'c' 'C' st.win st.shift st.caps st.ctrl st.alt ∧
      (procedure st Dir.down 68).2 =
        translate 'd' 'D' st.win st.shift st.caps st.ctrl st.alt ∧
      (procedure st Dir.down 69).2 =
        translate 'e' 'E' st.win st.shift st.caps st.ctrl st.alt ∧
      (procedure st Dir.down 70).2 =
        translate 'f' 'F' st.win st.shift st.caps st.ctrl st.alt ∧
      (procedure st Dir.down 71).2 =
        translate 'g' 'G' st.win st.shift st.caps st.ctrl st.alt ∧
      (procedure st Dir.down 72).2 =
        translate 'h' 'H' st.win st.shift st.caps st.ctrl st.alt ∧
      (procedure st Dir.down 73).2 =
        translate 'i' 'I' st.win st.shift st.caps st.ctrl st.alt ∧
      (procedure st Dir.down 74).2 =
        translate 'j' 'J' st.win st.shift st.caps st.ctrl st.alt ∧
      (procedure st Dir.down 75).2 =
        translate 'k' 'K' st.win st.shift st.caps st.ctrl st.alt ∧
      (procedure st Dir.down 76).2 =
        translate 'l' 'L' st.win st.shift st.caps st.ctrl st.alt ∧
      (procedure st Dir.down 77).2 =
        translate 'm' 'M' st.win st.shift st.caps st.ctrl st.alt ∧
      (procedure st Dir.down 78).2 =
        translate 'n' 'N' st.win st.shift st.caps st.ctrl st.alt ∧
      (procedure st Dir.down 79).2 =
        translate 'o' 'O' st.win st.shift st.caps st.ctrl st.alt ∧
      (procedure st Dir.down 80).2 =
        translate 'p' 'P' st.win st.shift st.caps st.ctrl st.alt ∧
      (procedure st Dir.down 81).2 =
        translate 'q' 'Q' st.win st.shift st.caps st.ctrl st.alt ∧
      (procedure st Dir.down 82).2 =
        translate 'r' 'R' st.win st.shift st.caps st.ctrl st.alt ∧
      (procedure st Dir.down 83).2 =
        translate 's' 'S' st.win st.shift st.caps st.ctrl st.alt ∧
      (procedure st Dir.down 84).2 =
        translate 't' 'T' st.win st.shift st.caps st.ctrl st.alt ∧
      (procedure st Dir.down 85).2 =
        translate 'u' 'U' st.win st.shift st.caps st.ctrl st.alt ∧
      (procedure st Dir.down 86).2 =
        translate 'v' 'V' st.win st.shift st.caps st.ctrl st.alt ∧
      (procedure st Dir.down 87).2 =
        translate 'w' 'W' st.win st.shift st.caps st.ctrl st.alt ∧
      (procedure st Dir.down 88).2 =
        translate 'x' 'X' st.win st.shift st.caps st.ctrl st.alt ∧
      (procedure st Dir.down 89).2 =
        translate 'y' 'Y' st.win st.shift st.caps st.ctrl st.alt ∧
      (procedure st Dir.down 90).2 =
        translate 'z' 'Z' st.win st.shift st.caps st.ctrl st.alt ∧
      (procedure st Dir.down 186).2 =
        translate ';' ':' st.win st.shift st.caps st.ctrl st.alt ∧
      (procedure st Dir.down 187).2 =
        translate '=' '+' st.win st.shift st.caps st.ctrl st.alt ∧
      (procedure st Dir.down 188).2 =
        translate ',' '<' st.win st.shift st.caps st.ctrl st.alt ∧
      (procedure st Dir.down 189).2 =
        translate '-' '_' st.win st.shift st.caps st.ctrl st.alt ∧
      (procedure st Dir.down 190).2 =
        translate '.' '>' st.win st.shift st.caps st.ctrl st.alt ∧
      (procedure st Dir.down 191).2 =
        translate '/' '?' st.win st.shift st.caps st.ctrl st.alt ∧
      (procedure st Dir.down 192).2 =
        translate (Char.ofNat 96) '~' st.win st.shift st.caps st.ctrl
          st.alt ∧
      (procedure st Dir.down 219).2 =
        translate '[' (Char.ofNat 123) st.win st.shift st.caps st.ctrl
          st.alt ∧
      (procedure st Dir.down 220).2 =
        translate (Char.ofNat 92) '|' st.win st.shift st.caps st.ctrl
          st.alt ∧
      (procedure st Dir.down 221).2 =
        translate ']' (Char.ofNat 125) st.win st.shift st.caps st.ctrl
          st.alt ∧
      (procedure st Dir.down 222).2 =
        translate (Char.ofNat 39) (Char.ofNat 34) st.win st.shift st.caps
          st.ctrl st.alt) := by
  refine ⟨fun h => ?_, fun h => ?_, ?_⟩
  · cases d <;> simp only [procedure] <;> split <;>
      first
        | rfl
        | exact absurd h (by decide)
  · cases d <;> simp only [procedure] <;> split <;>
      first
        | rfl
        | exact absurd h (by decide)
  · repeat' apply And.intro
    all_goals rfl

/-- Witness for C9 at concrete inputs: left-shift down (a modifier)
emits nothing, and the key a down (not a modifier) leaves the state
unchanged and yields the fragment that `translate` gives the pair (a, A)
at the initial snapshot. -/
theorem c9_witness :
    (procedure initialState Dir.down 160).2 = [] ∧
    (procedure initialState Dir.down 65).1 = initialState ∧
    (procedure initialState Dir.down 65).2 =
      translate 'a' 'A' initialState.win initialState.shift
        initialState.caps initialState.ctrl initialState.alt :=
  ⟨(c9_event_routing initialState Dir.down 160).1 rfl,
    (c9_event_routing initialState Dir.down 65).2.1 rfl,
    (c9_event_routing initialState Dir.down 65).2.2.2.2.2.2.2.2.2.2.2.2.1⟩

/-- C10: a key-down of VK_PRIOR (33, the Page-Up key) emits the label
PGDN and a key-down of VK_NEXT (34, the Page-Down key) emits the label
PGUP, in every modifier state — the two labels are swapped with respect
to the keys' Windows meanings, and they are distinct strings. -/
theorem c10_page_labels_swapped (st : ProcState) :
    (procedure st Dir.down 33).2 = "<PGDN>".data ∧
    (procedure st Dir.down 34).2 = "<PGUP>".data ∧
    "<PGDN>".data ≠ "<PGUP>".data :=
  ⟨rfl, rfl, by decide⟩

/-- Fragment emitted by a key-down of code `vk` in an undecorated state
(win, ctrl, alt all false) with the given shift and caps-lock flags. -/
def undecOut (sh cp : Bool) (vk : Nat) : List Char :=
  (procedure ⟨false, sh, cp, false, false⟩ Dir.down vk).2

/-- C2 counterexample: with caps-lock toggled on, shift not held and no
decorating modifier, the digit key 48 (the 0 key, a character-table key)
emits its primary character 0, not its secondary character — the digit
`case`s of `procedure` pass `false` for caps instead of the tracker's
toggle (Main.cpp line 134). -/
theorem c2_counterexample :
    undecOut false true 48 = ['0'] ∧ undecOut false true 48 ≠ [')'] :=
  ⟨by decide, by decide⟩

/-- C2 amended: in an undecorated state, letter keys (65-90) and OEM
punctuation keys (186-192, 219-222) feed the tracker's real caps-lock
toggle into character selection (secondary exactly when shift and
caps-lock differ), but digit keys (48-57) feed a constant false
(secondary exactly when shift is held, caps-lock ignored). -/
theorem c2_effective_caps (sh cp : Bool) :
    undecOut sh cp 65 = [if Bool.xor sh cp then 'A' else 'a'] ∧
    undecOut sh cp 66 = [if Bool.xor sh cp then 'B' else 'b'] ∧
    undecOut sh cp 67 = [if Bool.xor sh cp then 'C' else 'c'] ∧
    undecOut sh cp 68 = [if Bool.xor sh cp then 'D' else 'd'] ∧
    undecOut sh cp 69 = [if Bool.xor sh cp then 'E' else 'e'] ∧
    undecOut sh cp 70 = [if Bool.xor sh cp then 'F' else 'f'] ∧
    undecOut sh cp 71 = [if Bool.xor sh cp then 'G' else 'g'] ∧
    undecOut sh cp 72 = [if Bool.xor sh cp then 'H' else 'h'] ∧
    undecOut sh cp 73 = [if Bool.xor sh cp then 'I' else 'i'] ∧
    undecOut sh cp 74 = [if Bool.xor sh cp then 'J' else 'j'] ∧
    undecOut sh cp 75 = [if Bool.xor sh cp then 'K' else 'k'] ∧
    undecOut sh cp 76 = [if Bool.xor sh cp then 'L' else 'l'] ∧
    undecOut sh cp 77 = [if Bool.xor sh cp then 'M' else 'm'] ∧
    undecOut sh cp 78 = [if Bool.xor sh cp then 'N' else 'n'] ∧
    undecOut sh cp 79 = [if Bool.xor sh cp then 'O' else 'o'] ∧
    undecOut sh cp 80 = [if Bool.xor sh cp then 'P' else 'p'] ∧
    undecOut sh cp 81 = [if Bool.xor sh cp then 'Q' else 'q'] ∧
    undecOut sh cp 82 = [if Bool.xor sh cp then 'R' else 'r'] ∧
    undecOut sh cp 83 = [if Bool.xor sh cp then 'S' else 's'] ∧
    undecOut sh cp 84 = [if Bool.xor sh cp then 'T' else 't'] ∧
    undecOut sh cp 85 = [if Bool.xor sh cp then 'U' else 'u'] ∧
    undecOut sh cp 86 = [if Bool.xor sh cp then 'V' else 'v'] ∧
    undecOut sh cp 87 = [if Bool.xor sh cp then 'W' else 'w'] ∧
    undecOut sh cp 88 = [if Bool.xor sh cp then 'X' else 'x'] ∧
    undecOut sh cp 89 = [if Bool.xor sh cp then 'Y' else 'y'] ∧
    undecOut sh cp 90 = [if Bool.xor sh cp then 'Z' else 'z'] ∧
    undecOut sh cp 48 = [if sh then ')' else '0'] ∧
    undecOut sh cp 49 = [if sh then '!' else '1'] ∧
    undecOut sh cp 50 = [if sh then '@' else '2'] ∧
    undecOut sh cp 51 = [if sh then '#' else '3'] ∧
    undecOut sh cp 52 = [if sh then '$' else '4'] ∧
    undecOut sh cp 53 = [if sh then '%' else '5'] ∧
    undecOut sh cp 54 = [if sh then '^' else '6'] ∧
    undecOut sh cp 55 = [if sh then '&' else '7'] ∧
    undecOut sh cp 56 = [if sh then '*' else '8'] ∧
    undecOut sh cp 57 = [if sh then '(' else '9'] ∧
    undecOut sh cp 186 = [if Bool.xor sh cp then ':' else ';'] ∧
    undecOut sh cp 187 = [if Bool.xor sh cp then '+' else '='] ∧
    undecOut sh cp 188 = [if Bool.xor sh cp then '<' else ','] ∧
    undecOut sh cp 189 = [if Bool.xor sh cp then '_' else '-'] ∧
    undecOut sh cp 190 = [if Bool.xor sh cp then '>' else '.'] ∧
    undecOut sh cp 191 = [if Bool.xor sh cp then '?' else '/'] ∧
    undecOut sh cp 192 = [if Bool.xor sh cp then '~' else Char.ofNat 96] ∧
    undecOut sh cp 219 = [if Bool.xor sh cp then Char.ofNat 123 else '['] ∧
    undecOut sh cp 220 = [if Bool.xor sh cp then '|' else Char.ofNat 92] ∧
    undecOut sh cp 221 = [if Bool.xor sh cp then Char.ofNat 125 else ']'] ∧
    undecOut sh cp 222 =
      [if Bool.xor sh cp then Char.ofNat 34 else Char.ofNat 39] := by
  cases sh <;> cases cp <;> (repeat' apply And.intro) <;> decide

end Keylogger
